import Mathlib

/-!
Verification of the map point-series placement pipeline
(`src/.internal/charts/map/MapPointSeries.ts`) and the candlestick shape
renderer (`src/.internal/charts/xy/series/Candlestick.ts`).

Geographic coordinates, screen coordinates and fractional line positions are
numbers in the source; they are embedded as `Rat`.  External capabilities the
source consumes (the projection function, the geo clip-path predicate,
`chart.convert`, `MapLine.positionToGeoPoint`, `MapPolygon.visualCentroid`,
`getDataItemById`, `$math.getAngle`) are pluggable values, exactly as the
source treats them: fields of the chart/series structures or explicit
function parameters.
-/

/-- A geographic point (`IGeoPoint`): longitude and latitude. -/
structure GeoPoint where
  longitude : Rat
  latitude : Rat
deriving DecidableEq

/-- GeoJSON geometry of a point-series data item: `Point` or `MultiPoint`
(the series' `_types` restricts ingested geometry to these two). -/
inductive Geometry where
  | point (coordinates : Rat × Rat)
  | multiPoint (coordinates : List (Rat × Rat))
deriving DecidableEq

/-- A `MapLine`: consumed through its `positionToGeoPoint` capability. -/
structure MapLine where
  positionToGeoPoint : Rat → GeoPoint

/-- A `MapPolygon`: consumed through its `visualCentroid()` capability. -/
structure MapPolygon where
  visualCentroid : GeoPoint

/-- A data item of a `MapLineSeries`; `get("mapLine")` may be unset. -/
structure LineDataItem where
  mapLine : Option MapLine

/-- A data item of a `MapPolygonSeries`; `get("mapPolygon")` may be unset. -/
structure PolygonDataItem where
  mapPolygon : Option MapPolygon

/-- A sibling series in `chart.series`, tagged by its runtime type
(`series.isType("MapLineSeries")` / `isType("MapPolygonSeries")`), carrying
its `getDataItemById` lookup. -/
inductive Series where
  | lineSeries (getDataItemById : String → Option LineDataItem)
  | polygonSeries (getDataItemById : String → Option PolygonDataItem)
  | otherSeries

/-- The owning chart: sibling series collection (insertion order), the
pluggable `projection` (which may yield no result), the private `geoPath`
clip predicate, and `chart.convert` (geo point to screen point). -/
structure Chart where
  series : List Series
  projection : Rat × Rat → Option (Rat × Rat)
  geoPath : Geometry → Bool
  convert : GeoPoint → Rat × Rat

/-- The point series' settings used by placement: `clipFront` and
`clipBack` (an unset setting reads as falsy). -/
structure MapPointSettings where
  clipFront : Bool
  clipBack : Bool

/-- An `IMapPointSeriesDataItem`: the entry driving one or more markers. -/
structure PointDataItem where
  geometry : Option Geometry
  longitude : Option Rat
  latitude : Option Rat
  positionOnLine : Option Rat
  autoRotate : Bool
  autoRotateAngle : Option Rat
  lineDataItem : Option LineDataItem
  lineId : Option String
  polygonDataItem : Option PolygonDataItem
  polygonId : Option String

/-- The attributes of a marker's sprite that placement writes:
`x`, `y`, `rotation` and the private `visible` flag.  `none` means the
attribute has never been written. -/
structure Sprite where
  x : Option Rat
  y : Option Rat
  rotation : Option Rat
  visible : Option Bool
deriving DecidableEq

/-- JavaScript truthiness of an optional string (the `if (lineId && chart)`
guards): present and non-empty. -/
def strTruthy : Option String → Bool
  | some s => s ≠ ""
  | none => false

/-- One step of the `chart.series.each` loop in `_positionBullet` that
resolves a `lineId`: a matching `MapLineSeries` with a data item for the id
overwrites the cached `lineDataItem` and the local `line`; every other
series leaves the accumulator unchanged. -/
def lineScanStep (id : String) (acc : PointDataItem × Option MapLine) :
    Series → PointDataItem × Option MapLine
  | Series.lineSeries get =>
      match get id with
      | some lineDI => ({ acc.1 with lineDataItem := some lineDI }, lineDI.mapLine)
      | none => acc
  | Series.polygonSeries _ => acc
  | Series.otherSeries => acc

/-- One step of the `chart.series.each` loop in `_positionBullet` that
resolves a `polygonId`. -/
def polygonScanStep (id : String) (acc : PointDataItem × Option MapPolygon) :
    Series → PointDataItem × Option MapPolygon
  | Series.polygonSeries get =>
      match get id with
      | some polygonDI => ({ acc.1 with polygonDataItem := some polygonDI }, polygonDI.mapPolygon)
      | none => acc
  | Series.lineSeries _ => acc
  | Series.otherSeries => acc

/-- The line-resolution prologue of `_positionBullet` (lines 198-218): use
the cached `lineDataItem` if present; otherwise, when a truthy `lineId` and
a chart are available, run one full scan of `chart.series`.  Returns the
(possibly updated) data item, the local `line`, and the number of
sibling-series scans performed (0 or 1). -/
def resolveLine (chart : Option Chart) (d : PointDataItem) :
    PointDataItem × Option MapLine × Nat :=
  match d.lineDataItem with
  | some lineDI => (d, lineDI.mapLine, 0)
  | none =>
      match d.lineId, chart with
      | some id, some ch =>
          if id ≠ "" then
            let r := ch.series.foldl (lineScanStep id) (d, none)
            (r.1, r.2, 1)
          else (d, none, 0)
      | some _, none => (d, none, 0)
      | none, _ => (d, none, 0)

/-- The polygon-resolution prologue of `_positionBullet` (lines 221-240),
mirror image of `resolveLine`. -/
def resolvePolygon (chart : Option Chart) (d : PointDataItem) :
    PointDataItem × Option MapPolygon × Nat :=
  match d.polygonDataItem with
  | some polygonDI => (d, polygonDI.mapPolygon, 0)
  | none =>
      match d.polygonId, chart with
      | some id, some ch =>
          if id ≠ "" then
            let r := ch.series.foldl (polygonScanStep id) (d, none)
            (r.1, r.2, 1)
          else (d, none, 0)
      | some _, none => (d, none, 0)
      | none, _ => (d, none, 0)

/-- The data item of the LAST line series in the collection that has an
entry for `id` (spec-side description of what the scan actually computes;
the spec's words say the FIRST such series wins). -/
def lastLineMatch (ss : List Series) (id : String) : Option LineDataItem :=
  match ss with
  | [] => none
  | s :: rest =>
      match lastLineMatch rest id with
      | some lineDI => some lineDI
      | none =>
          match s with
          | Series.lineSeries get => get id
          | Series.polygonSeries _ => none
          | Series.otherSeries => none

/-- The data item of the FIRST line series in the collection that has an
entry for `id`: this is what the spec's words describe the resolver as
returning. -/
def firstLineMatch (ss : List Series) (id : String) : Option LineDataItem :=
  match ss with
  | [] => none
  | s :: rest =>
      match s with
      | Series.lineSeries get =>
          match get id with
          | some lineDI => some lineDI
          | none => firstLineMatch rest id
      | Series.polygonSeries _ => firstLineMatch rest id
      | Series.otherSeries => firstLineMatch rest id

/-- Mirror of `lastLineMatch` for polygon series. -/
def lastPolygonMatch (ss : List Series) (id : String) : Option PolygonDataItem :=
  match ss with
  | [] => none
  | s :: rest =>
      match lastPolygonMatch rest id with
      | some polygonDI => some polygonDI
      | none =>
          match s with
          | Series.polygonSeries get => get id
          | Series.lineSeries _ => none
          | Series.otherSeries => none

/-- `_positionBulletReal` (lines 285-317): with no chart nothing happens.
Otherwise project the chosen coordinates; when projection yields a point,
write `x` and `y` (when not, skip the position write).  Then compute
visibility from the `geoPath` clip predicate and the `clipFront` /
`clipBack` settings and write it; finally, when the data item has
`autoRotate`, write `rotation` from the cached `autoRotateAngle`
(defaulting to 0). -/
def positionBulletReal (chart : Option Chart) (st : MapPointSettings)
    (d : PointDataItem) (sprite : Sprite) (geometry : Geometry)
    (coordinates : Rat × Rat) : Sprite :=
  match chart with
  | none => sprite
  | some ch =>
      let xy := ch.projection coordinates
      let s1 :=
        match xy with
        | some q => { sprite with x := some q.1, y := some q.2 }
        | none => sprite
      let visible := if ch.geoPath geometry then !st.clipFront else !st.clipBack
      let s2 := { s1 with visible := some visible }
      if d.autoRotate then { s2 with rotation := some (d.autoRotateAngle.getD 0) } else s2

/-- `_positionBullet` (lines 191-283) for one bullet whose sprite is bound
to data item `d`.  `getAngle` is the external `$math.getAngle` utility;
`bulletIndex` is `bullet._index`.  Resolves the line and polygon references
(scanning sibling series as needed), picks coordinates by the fallback
order polygon-centroid / line-position / longitude-latitude / stored
geometry, computes `autoRotateAngle` in the line branch, and hands off to
`positionBulletReal`.  Returns the updated data item, the updated sprite,
and the total number of sibling-series scans performed. -/
def positionBullet (getAngle : Rat × Rat → Rat × Rat → Rat)
    (chart : Option Chart) (st : MapPointSettings) (bulletIndex : Option Nat)
    (d : PointDataItem) (sprite : Sprite) : PointDataItem × Sprite × Nat :=
  let rl := resolveLine chart d
  let d1 := rl.1
  let line := rl.2.1
  let rp := resolvePolygon chart d1
  let d2 := rp.1
  let polygon := rp.2.1
  let scans := rl.2.2 + rp.2.2
  match polygon with
  | some poly =>
      let gp := poly.visualCentroid
      let c := (gp.longitude, gp.latitude)
      (d2, positionBulletReal chart st d2 sprite (Geometry.point c) c, scans)
  | none =>
      match line, d2.positionOnLine with
      | some l, some p =>
          let gp := l.positionToGeoPoint p
          let c := (gp.longitude, gp.latitude)
          let d3 :=
            match d2.autoRotate, chart with
            | true, some ch =>
                let gp0 := l.positionToGeoPoint (p - 0.002)
                let gp1 := l.positionToGeoPoint (p + 0.002)
                let q0 := ch.convert gp0
                let q1 := ch.convert gp1
                { d2 with autoRotateAngle := some (getAngle q0 q1) }
            | true, none => d2
            | false, _ => d2
          (d3, positionBulletReal chart st d3 sprite (Geometry.point c) c, scans)
      | _, _ =>
          match d2.longitude, d2.latitude with
          | some lon, some lat =>
              let c := (lon, lat)
              (d2, positionBulletReal chart st d2 sprite (Geometry.point c) c, scans)
          | _, _ =>
              match d2.geometry with
              | some (Geometry.point c) =>
                  (d2, positionBulletReal chart st d2 sprite (Geometry.point c) c, scans)
              | some (Geometry.multiPoint cs) =>
                  let index := bulletIndex.getD 0
                  match cs[index]? with
                  | some c =>
                      (d2, positionBulletReal chart st d2 sprite (Geometry.point c) c, scans)
                  | none => (d2, sprite, scans)
              | none => (d2, sprite, scans)

/-- `_makeBullets` (lines 170-189): for each registered bullet factory, a
`Point` geometry yields one bullet with no index; otherwise (the
`geometry.type = "MultiPoint"` conditional is an assignment and always
truthy, so a `MultiPoint` always takes this branch) one bullet per
coordinate, carrying its 0-based index.  No geometry yields no bullets.
Factories are abstract values; each produced bullet records its factory and
its `_index`. -/
def makeBullets {A : Type} (factories : List A) (geometry : Option Geometry) :
    List (A × Option Nat) :=
  factories.foldl
    (fun acc f =>
      acc ++
        (match geometry with
         | none => []
         | some (Geometry.point _) => [(f, none)]
         | some (Geometry.multiPoint cs) =>
             (List.range cs.length).map (fun i => (f, some i))))
    []

/-- The wick-coordinate and other settings of a `Candlestick` shape.
Each of the eight coordinates is optional; `orientation` stands for a
setting unrelated to the wick coordinates. -/
inductive CandleAttr where
  | lowX0 | lowY0 | lowX1 | lowY1
  | highX0 | highY0 | highX1 | highY1
  | orientation
deriving DecidableEq

/-- The candlestick's wick coordinate settings (each `this.get(key, 0)`
defaults a missing coordinate to 0). -/
structure CandlestickSettings where
  lowX0 : Option Rat
  lowY0 : Option Rat
  lowX1 : Option Rat
  lowY1 : Option Rat
  highX0 : Option Rat
  highY0 : Option Rat
  highX1 : Option Rat
  highY1 : Option Rat

/-- Modelled from the spec: the inherited `RoundedRectangle._beforeChanged`
hook is not under src/; per the spec, setting an attribute unrelated to the
wick coordinates does not force a full redraw, so the inherited hook is
modelled as leaving the clear flag as it is. -/
def roundedRectangleBeforeChanged (clear : Bool) : Bool := clear

/-- `Candlestick._beforeChanged` (lines 59-65): after the inherited hook,
if any of the eight wick coordinates is dirty, set `_clear` (forcing the
cached path to be cleared on the next draw pass). -/
def candlestickBeforeChanged (isDirty : CandleAttr → Bool) (clear : Bool) : Bool :=
  let c := roundedRectangleBeforeChanged clear
  if isDirty CandleAttr.lowX0 || isDirty CandleAttr.lowY0 || isDirty CandleAttr.lowX1 ||
      isDirty CandleAttr.lowY1 || isDirty CandleAttr.highX0 || isDirty CandleAttr.highX1 ||
      isDirty CandleAttr.highY0 || isDirty CandleAttr.highY1 then
    true
  else c

/-- A vector-path command issued to the display object. -/
inductive PathCmd where
  | moveTo (x y : Rat)
  | lineTo (x y : Rat)
deriving DecidableEq

/-- `Candlestick._draw` (lines 67-77): first `super._draw()` renders the
inherited box body (not under src/; abstracted as the command list `body`),
then two open polylines are appended: low wick `(lowX0,lowY0)` to
`(lowX1,lowY1)` and high wick `(highX0,highY0)` to `(highX1,highY1)`, every
missing coordinate defaulting to 0. -/
def candlestickDraw (st : CandlestickSettings) (body : List PathCmd) : List PathCmd :=
  body ++
    [PathCmd.moveTo (st.lowX0.getD 0) (st.lowY0.getD 0),
     PathCmd.lineTo (st.lowX1.getD 0) (st.lowY1.getD 0),
     PathCmd.moveTo (st.highX0.getD 0) (st.highY0.getD 0),
     PathCmd.lineTo (st.highX1.getD 0) (st.highY1.getD 0)]

/-! Concrete fixtures used by witness and counterexample theorems. -/

/-- A stand-in for the external `$math.getAngle` utility (any function of
two screen points works for the structural theorems; witnesses use this
computable one). -/
def gAngle0 : Rat × Rat → Rat × Rat → Rat := fun a _ => a.1

/-- A chart whose projection always succeeds (swapping the coordinates)
and whose clip path contains everything. -/
def chartAll : Chart :=
  ⟨[], fun c => some (c.2, c.1), fun _ => true, fun g => (g.longitude, g.latitude)⟩

/-- A chart whose projection never yields a result and whose clip path
contains nothing. -/
def chartNone : Chart :=
  ⟨[], fun _ => none, fun _ => false, fun g => (g.longitude, g.latitude)⟩

/-- A sprite with no attribute ever written. -/
def sprite0 : Sprite := ⟨none, none, none, none⟩

/-- A sprite previously placed at (1, 2). -/
def sprite1 : Sprite := ⟨some 1, some 2, none, none⟩

/-- Settings with both clip flags off. -/
def st00 : MapPointSettings := ⟨false, false⟩

/-- An entry with no fields set. -/
def entry0 : PointDataItem := ⟨none, none, none, none, false, none, none, none, none, none⟩

/-- A polygon whose visual centroid is (3, 4). -/
def poly1 : MapPolygon := ⟨⟨3, 4⟩⟩

/-- A polygon-series data item carrying `poly1`. -/
def pdi1 : PolygonDataItem := ⟨some poly1⟩

/-- An entry attached to `poly1` that also carries its own longitude 50 and
latitude 60 (which the polygon branch must ignore). -/
def entryPoly : PointDataItem :=
  ⟨none, some 50, some 60, none, false, none, none, none, some pdi1, none⟩

/-- An entry with only longitude 7 and latitude 8. -/
def entryLonLat : PointDataItem :=
  ⟨none, some 7, some 8, none, false, none, none, none, none, none⟩

/-- A line mapping fraction `p` to the geo point (p, p). -/
def line1 : MapLine := ⟨fun p => ⟨p, p⟩⟩

/-- A line-series data item carrying `line1`. -/
def ldi1 : LineDataItem := ⟨some line1⟩

/-- An entry attached to `line1` at position 1/2 with `autoRotate`. -/
def entryLine : PointDataItem :=
  ⟨none, none, none, some (1/2), true, none, some ldi1, none, none, none⟩

/-- An entry with both reference caches already populated. -/
def entryBoth : PointDataItem :=
  ⟨none, none, none, none, false, none, some ldi1, none, some pdi1, none⟩

/-- An entry with a three-coordinate `MultiPoint` geometry. -/
def entryMulti : PointDataItem :=
  ⟨some (Geometry.multiPoint [(1, 1), (2, 3), (5, 8)]), none, none, none, false, none,
    none, none, none, none⟩

/-- An entry with `autoRotate` and a cached angle of 5. -/
def entryRot : PointDataItem :=
  ⟨none, some 7, some 8, none, true, some 5, none, none, none, none⟩

/-- The identifier shared by two sibling line series. -/
def dupId : String := "L"

/-- The data item the FIRST matching series resolves `dupId` to; its line
sends every fraction to (1, 1). -/
def ldiA : LineDataItem := ⟨some ⟨fun _ => ⟨1, 1⟩⟩⟩

/-- The data item the SECOND matching series resolves `dupId` to; its line
sends every fraction to (2, 2). -/
def ldiB : LineDataItem := ⟨some ⟨fun _ => ⟨2, 2⟩⟩⟩

/-- First sibling line series: resolves `dupId` to `ldiA`. -/
def seriesA : Series := Series.lineSeries (fun id => if id = dupId then some ldiA else none)

/-- Second sibling line series: resolves `dupId` to `ldiB`. -/
def seriesB : Series := Series.lineSeries (fun id => if id = dupId then some ldiB else none)

/-- A chart whose series collection holds `seriesA` before `seriesB`, both
matching `dupId`. -/
def chartDup : Chart :=
  ⟨[seriesA, seriesB], fun c => some c, fun _ => true, fun g => (g.longitude, g.latitude)⟩

/-- An entry referencing `dupId` with no cached resolution. -/
def entryDup : PointDataItem :=
  ⟨none, none, none, none, false, none, none, some dupId, none, none⟩

/-- The eight wick coordinate attributes of the candlestick. -/
def wickAttrs : List CandleAttr :=
  [CandleAttr.lowX0, CandleAttr.lowY0, CandleAttr.lowX1, CandleAttr.lowY1,
   CandleAttr.highX0, CandleAttr.highY0, CandleAttr.highX1, CandleAttr.highY1]

/-- Candlestick settings with every wick coordinate missing. -/
def stNone : CandlestickSettings := ⟨none, none, none, none, none, none, none, none⟩
/-- Characterization of the line scan: the fold keeps the accumulator
whenever no series matches, and otherwise ends with the last matching
series' data item cached and its `mapLine` as the local `line`. -/
theorem lineScan_foldl (id : String) (ss : List Series) (d : PointDataItem)
    (l : Option MapLine) :
    ss.foldl (lineScanStep id) (d, l) =
      match lastLineMatch ss id with
      | some lineDI => ({ d with lineDataItem := some lineDI }, lineDI.mapLine)
      | none => (d, l) := by
  induction ss generalizing d l with
  | nil => rfl
  | cons s rest ih =>
      cases s with
      | lineSeries get =>
          simp only [List.foldl_cons, lineScanStep, lastLineMatch]
          cases h : get id with
          | none =>
              rw [ih d l]
              cases lastLineMatch rest id <;> simp
          | some lineDI =>
              rw [ih { d with lineDataItem := some lineDI } lineDI.mapLine]
              cases lastLineMatch rest id <;> simp
      | polygonSeries get =>
          simp only [List.foldl_cons, lineScanStep, lastLineMatch]
          rw [ih d l]
          cases lastLineMatch rest id <;> simp
      | otherSeries =>
          simp only [List.foldl_cons, lineScanStep, lastLineMatch]
          rw [ih d l]
          cases lastLineMatch rest id <;> simp

/-- Characterization of the polygon scan, mirror of `lineScan_foldl`. -/
theorem polygonScan_foldl (id : String) (ss : List Series) (d : PointDataItem)
    (l : Option MapPolygon) :
    ss.foldl (polygonScanStep id) (d, l) =
      match lastPolygonMatch ss id with
      | some polygonDI => ({ d with polygonDataItem := some polygonDI }, polygonDI.mapPolygon)
      | none => (d, l) := by
  induction ss generalizing d l with
  | nil => rfl
  | cons s rest ih =>
      cases s with
      | polygonSeries get =>
          simp only [List.foldl_cons, polygonScanStep, lastPolygonMatch]
          cases h : get id with
          | none =>
              rw [ih d l]
              cases lastPolygonMatch rest id <;> simp
          | some polygonDI =>
              rw [ih { d with polygonDataItem := some polygonDI } polygonDI.mapPolygon]
              cases lastPolygonMatch rest id <;> simp
      | lineSeries get =>
          simp only [List.foldl_cons, polygonScanStep, lastPolygonMatch]
          rw [ih d l]
          cases lastPolygonMatch rest id <;> simp
      | otherSeries =>
          simp only [List.foldl_cons, polygonScanStep, lastPolygonMatch]
          rw [ih d l]
          cases lastPolygonMatch rest id <;> simp


/-- C4: for every placed marker, when the clip predicate reports the
geometry as within the renderable path, visibility is `false` exactly when
`clipFront` is set; when it reports it outside, visibility is `false`
exactly when `clipBack` is set. -/
theorem clip_visibility (ch : Chart) (st : MapPointSettings) (d : PointDataItem)
    (s : Sprite) (g : Geometry) (c : Rat × Rat) :
    (ch.geoPath g = true →
      (positionBulletReal (some ch) st d s g c).visible = some (!st.clipFront))
    ∧ (ch.geoPath g = false →
      (positionBulletReal (some ch) st d s g c).visible = some (!st.clipBack)) := by
  constructor <;> intro h <;>
    cases hxy : ch.projection c <;> cases har : d.autoRotate <;>
      simp [positionBulletReal, h, hxy, har]

/-- C4 witness: with an all-inside clip path and both flags off the marker
is visible; with a nothing-inside clip path and `clipBack` on it is not. -/
theorem clip_visibility_witness :
    (positionBulletReal (some chartAll) st00 entry0 sprite0 (Geometry.point (0, 0)) (0, 0)).visible
        = some true
    ∧ (positionBulletReal (some chartNone) ⟨false, true⟩ entry0 sprite0
        (Geometry.point (0, 0)) (0, 0)).visible = some false :=
  ⟨(clip_visibility chartAll st00 entry0 sprite0 (Geometry.point (0, 0)) (0, 0)).1 rfl,
   (clip_visibility chartNone ⟨false, true⟩ entry0 sprite0 (Geometry.point (0, 0)) (0, 0)).2 rfl⟩

/-- C6: when the projection yields no result for the chosen coordinates,
the placement step does not write `x` or `y`, so the marker keeps whatever
position it last had. -/
theorem projection_none_skips_position (ch : Chart) (st : MapPointSettings)
    (d : PointDataItem) (s : Sprite) (g : Geometry) (c : Rat × Rat)
    (h : ch.projection c = none) :
    (positionBulletReal (some ch) st d s g c).x = s.x
    ∧ (positionBulletReal (some ch) st d s g c).y = s.y := by
  cases har : d.autoRotate <;> simp [positionBulletReal, h, har]

/-- C6 witness: a failing projection leaves the previously written
position (1, 2) in place. -/
theorem projection_none_skips_position_witness :
    (positionBulletReal (some chartNone) st00 entry0 sprite1 (Geometry.point (0, 0)) (0, 0)).x
        = some 1
    ∧ (positionBulletReal (some chartNone) st00 entry0 sprite1 (Geometry.point (0, 0)) (0, 0)).y
        = some 2 :=
  projection_none_skips_position chartNone st00 entry0 sprite1 (Geometry.point (0, 0)) (0, 0) rfl

/-- C10: even when the projection yields no result (so the position write
is skipped), the placement step still writes the visibility flag computed
from the clip predicate, and still writes the rotation when `autoRotate`
is set: the marker update is partial, not atomic. -/
theorem projection_none_partial_update (ch : Chart) (st : MapPointSettings)
    (d : PointDataItem) (s : Sprite) (g : Geometry) (c : Rat × Rat)
    (h : ch.projection c = none) :
    (positionBulletReal (some ch) st d s g c).x = s.x
    ∧ (positionBulletReal (some ch) st d s g c).y = s.y
    ∧ (positionBulletReal (some ch) st d s g c).visible
        = some (if ch.geoPath g then !st.clipFront else !st.clipBack)
    ∧ (d.autoRotate = true →
        (positionBulletReal (some ch) st d s g c).rotation = some (d.autoRotateAngle.getD 0)) := by
  refine ⟨?_, ?_, ?_, ?_⟩ <;>
    cases har : d.autoRotate <;> simp [positionBulletReal, h, har]

/-- C10 witness: with a never-succeeding projection, an `autoRotate` entry
with cached angle 5 keeps its old position but gets its visibility flag
and rotation 5 written. -/
theorem projection_none_partial_update_witness :
    (positionBulletReal (some chartNone) st00 entryRot sprite1 (Geometry.point (0, 0)) (0, 0)).x
        = some 1
    ∧ (positionBulletReal (some chartNone) st00 entryRot sprite1 (Geometry.point (0, 0)) (0, 0)).y
        = some 2
    ∧ (positionBulletReal (some chartNone) st00 entryRot sprite1
        (Geometry.point (0, 0)) (0, 0)).visible = some true
    ∧ (positionBulletReal (some chartNone) st00 entryRot sprite1
        (Geometry.point (0, 0)) (0, 0)).rotation = some 5 := by
  have h := projection_none_partial_update chartNone st00 entryRot sprite1
    (Geometry.point (0, 0)) (0, 0) rfl
  exact ⟨h.1, h.2.1, h.2.2.1, h.2.2.2 rfl⟩

/-- C8: on the candlestick, a dirty wick coordinate (any of the eight)
forces the clear flag; with no wick coordinate dirty, the clear flag is
not set by the candlestick's change hook, however the unrelated
`orientation` attribute changed. -/
theorem wick_dirty_forces_redraw :
    (∀ (isDirty : CandleAttr → Bool) (clear : Bool) (k : CandleAttr),
      k ∈ wickAttrs → isDirty k = true →
      candlestickBeforeChanged isDirty clear = true)
    ∧ (∀ isDirty : CandleAttr → Bool,
      isDirty CandleAttr.lowX0 = false → isDirty CandleAttr.lowY0 = false →
      isDirty CandleAttr.lowX1 = false → isDirty CandleAttr.lowY1 = false →
      isDirty CandleAttr.highX0 = false → isDirty CandleAttr.highY0 = false →
      isDirty CandleAttr.highX1 = false → isDirty CandleAttr.highY1 = false →
      candlestickBeforeChanged isDirty false = false) := by
  constructor
  · intro isDirty clear k hk hdirty
    simp only [wickAttrs, List.mem_cons, List.not_mem_nil, or_false] at hk
    rcases hk with rfl | rfl | rfl | rfl | rfl | rfl | rfl | rfl <;>
      simp [candlestickBeforeChanged, hdirty]
  · intro isDirty h1 h2 h3 h4 h5 h6 h7 h8
    simp [candlestickBeforeChanged, roundedRectangleBeforeChanged, h1, h2, h3, h4, h5, h6, h7, h8]

/-- C8 witness: a dirty `highY1` forces the clear flag; a dirty
`orientation` alone does not. -/
theorem wick_dirty_forces_redraw_witness :
    candlestickBeforeChanged (fun k => decide (k = CandleAttr.highY1)) false = true
    ∧ candlestickBeforeChanged (fun k => decide (k = CandleAttr.orientation)) false = false :=
  ⟨wick_dirty_forces_redraw.1 (fun k => decide (k = CandleAttr.highY1)) false
      CandleAttr.highY1 (by decide) (by decide),
   wick_dirty_forces_redraw.2 (fun k => decide (k = CandleAttr.orientation))
      rfl rfl rfl rfl rfl rfl rfl rfl⟩

/-- C9: the candlestick draw procedure first emits the inherited box body,
then exactly the two open wick polylines, every missing coordinate
defaulting to 0; it is a total function, so degenerate (all-missing,
zero-length) wicks draw as two zero-length segments rather than raising. -/
theorem candlestick_draw_order (st : CandlestickSettings) (body : List PathCmd) :
    (candlestickDraw st body).take body.length = body
    ∧ (candlestickDraw st body).drop body.length =
        [PathCmd.moveTo (st.lowX0.getD 0) (st.lowY0.getD 0),
         PathCmd.lineTo (st.lowX1.getD 0) (st.lowY1.getD 0),
         PathCmd.moveTo (st.highX0.getD 0) (st.highY0.getD 0),
         PathCmd.lineTo (st.highX1.getD 0) (st.highY1.getD 0)]
    ∧ candlestickDraw stNone body =
        body ++ [PathCmd.moveTo 0 0, PathCmd.lineTo 0 0, PathCmd.moveTo 0 0, PathCmd.lineTo 0 0] := by
  refine ⟨?_, ?_, rfl⟩
  · simp [candlestickDraw, List.take_left]
  · simp [candlestickDraw, List.drop_left]

/-- Folding list-append over factories is a `flatMap` (shape of the
`bullets.each` loop in `_makeBullets`). -/
theorem foldl_append_flatMap {A B : Type} (h : A → List B) (fs : List A) :
    ∀ acc : List B, fs.foldl (fun a f => a ++ h f) acc = acc ++ fs.flatMap h := by
  induction fs with
  | nil => intro acc; simp
  | cons f rest ih => intro acc; simp [List.foldl_cons, ih]

/-- C7: an entry with a `MultiPoint` geometry of N coordinates yields
exactly N bound markers per registered factory, each recording its
coordinate index 0..N-1; a `Point` entry yields exactly one (index-free)
marker per factory; and placement for a marker with recorded index `i`
projects the multi-point coordinate at index `i`. -/
theorem multipoint_bullet_cardinality :
    (∀ (A : Type) (factories : List A) (cs : List (Rat × Rat)),
      makeBullets factories (some (Geometry.multiPoint cs)) =
        factories.flatMap (fun f => (List.range cs.length).map (fun i => (f, some i))))
    ∧ (∀ (A : Type) (factories : List A) (c : Rat × Rat),
      makeBullets factories (some (Geometry.point c)) =
        factories.map (fun f => (f, (none : Option Nat))))
    ∧ (∀ (gA : Rat × Rat → Rat × Rat → Rat) (ch : Chart) (st : MapPointSettings)
        (d : PointDataItem) (s : Sprite) (cs : List (Rat × Rat)) (i : Nat)
        (c q : Rat × Rat),
      d.lineDataItem = none → d.lineId = none → d.polygonDataItem = none →
      d.polygonId = none → d.longitude = none →
      d.geometry = some (Geometry.multiPoint cs) → cs[i]? = some c →
      ch.projection c = some q →
      ((positionBullet gA (some ch) st (some i) d s).2.1).x = some q.1
      ∧ ((positionBullet gA (some ch) st (some i) d s).2.1).y = some q.2) := by
  refine ⟨?_, ?_, ?_⟩
  · intro A factories cs
    rw [makeBullets, foldl_append_flatMap]
    simp
  · intro A factories c
    rw [makeBullets, foldl_append_flatMap]
    induction factories <;> simp_all
  · intro gA ch st d s cs i c q h1 h2 h3 h4 h5 h6 h7 h8
    cases hlat : d.latitude <;> cases hpos : d.positionOnLine <;> cases har : d.autoRotate <;>
      simp [positionBullet, resolveLine, resolvePolygon, positionBulletReal,
        h1, h2, h3, h4, h5, h6, h7, h8, hlat, hpos, har]

/-- C7 witness: two factories and a three-coordinate multi-point give six
markers with indices 0,1,2 per factory, and the marker with index 1 is
placed at the projection (swap) of the second coordinate. -/
theorem multipoint_bullet_cardinality_witness :
    makeBullets [0, 1] (some (Geometry.multiPoint [(1, 1), (2, 3), (5, 8)])) =
      [(0, some 0), (0, some 1), (0, some 2), (1, some 0), (1, some 1), (1, some 2)]
    ∧ ((positionBullet gAngle0 (some chartAll) st00 (some 1) entryMulti sprite0).2.1).x = some 3
    ∧ ((positionBullet gAngle0 (some chartAll) st00 (some 1) entryMulti sprite0).2.1).y = some 2 := by
  refine ⟨(multipoint_bullet_cardinality.1 Nat [0, 1] [(1, 1), (2, 3), (5, 8)]).trans (by decide),
    ?_, ?_⟩
  · exact (multipoint_bullet_cardinality.2.2 gAngle0 chartAll st00 entryMulti sprite0
      [(1, 1), (2, 3), (5, 8)] 1 (2, 3) (3, 2) rfl rfl rfl rfl rfl rfl rfl rfl).1
  · exact (multipoint_bullet_cardinality.2.2 gAngle0 chartAll st00 entryMulti sprite0
      [(1, 1), (2, 3), (5, 8)] 1 (2, 3) (3, 2) rfl rfl rfl rfl rfl rfl rfl rfl).2

/-- C1: strict fallback order.  When resolution yields a polygon, the
marker is placed at the projection of that polygon's visual centroid, no
matter what longitude/latitude the entry itself carries; when the entry
has both longitude and latitude and no line/polygon attachment, it is
placed at the direct projection of (longitude, latitude). -/
theorem placement_fallback_order :
    (∀ (gA : Rat × Rat → Rat × Rat → Rat) (ch : Chart) (st : MapPointSettings)
        (idx : Option Nat) (d : PointDataItem) (s : Sprite) (poly : MapPolygon)
        (q : Rat × Rat),
      (resolvePolygon (some ch) (resolveLine (some ch) d).1).2.1 = some poly →
      ch.projection (poly.visualCentroid.longitude, poly.visualCentroid.latitude) = some q →
      ((positionBullet gA (some ch) st idx d s).2.1).x = some q.1
      ∧ ((positionBullet gA (some ch) st idx d s).2.1).y = some q.2)
    ∧ (∀ (gA : Rat × Rat → Rat × Rat → Rat) (ch : Chart) (st : MapPointSettings)
        (idx : Option Nat) (d : PointDataItem) (s : Sprite) (lon lat : Rat)
        (q : Rat × Rat),
      d.lineDataItem = none → d.lineId = none → d.polygonDataItem = none →
      d.polygonId = none → d.longitude = some lon → d.latitude = some lat →
      ch.projection (lon, lat) = some q →
      ((positionBullet gA (some ch) st idx d s).2.1).x = some q.1
      ∧ ((positionBullet gA (some ch) st idx d s).2.1).y = some q.2) := by
  constructor
  · intro gA ch st idx d s poly q hpoly hq
    cases har : ((resolvePolygon (some ch) (resolveLine (some ch) d).1).1).autoRotate <;>
      simp [positionBullet, positionBulletReal, hpoly, hq, har]
  · intro gA ch st idx d s lon lat q h1 h2 h3 h4 h5 h6 hq
    cases hpos : d.positionOnLine <;> cases har : d.autoRotate <;>
      simp [positionBullet, resolveLine, resolvePolygon, positionBulletReal,
        h1, h2, h3, h4, h5, h6, hq, hpos, har]

/-- C1 witness: an entry attached to the polygon with centroid (3, 4) is
placed at its projection (4, 3) although the entry's own longitude and
latitude are (50, 60); an unattached entry with longitude 7 and latitude 8
is placed at their projection (8, 7). -/
theorem placement_fallback_order_witness :
    ((positionBullet gAngle0 (some chartAll) st00 none entryPoly sprite0).2.1).x = some 4
    ∧ ((positionBullet gAngle0 (some chartAll) st00 none entryPoly sprite0).2.1).y = some 3
    ∧ ((positionBullet gAngle0 (some chartAll) st00 none entryLonLat sprite0).2.1).x = some 8
    ∧ ((positionBullet gAngle0 (some chartAll) st00 none entryLonLat sprite0).2.1).y = some 7 := by
  have hp := placement_fallback_order.1 gAngle0 chartAll st00 none entryPoly sprite0
    poly1 (4, 3) rfl rfl
  have hl := placement_fallback_order.2 gAngle0 chartAll st00 none entryLonLat sprite0
    7 8 (8, 7) rfl rfl rfl rfl rfl rfl rfl
  exact ⟨hp.1, hp.2, hl.1, hl.2⟩

/-- Line resolution only ever touches the entry's `lineDataItem` cache:
every other field of the data item is preserved. -/
theorem resolveLine_fst_preserves (c : Option Chart) (d : PointDataItem) :
    ((resolveLine c d).1).geometry = d.geometry
    ∧ ((resolveLine c d).1).longitude = d.longitude
    ∧ ((resolveLine c d).1).latitude = d.latitude
    ∧ ((resolveLine c d).1).positionOnLine = d.positionOnLine
    ∧ ((resolveLine c d).1).autoRotate = d.autoRotate
    ∧ ((resolveLine c d).1).autoRotateAngle = d.autoRotateAngle
    ∧ ((resolveLine c d).1).polygonDataItem = d.polygonDataItem
    ∧ ((resolveLine c d).1).polygonId = d.polygonId := by
  unfold resolveLine
  cases d.lineDataItem with
  | some lineDI => exact ⟨rfl, rfl, rfl, rfl, rfl, rfl, rfl, rfl⟩
  | none =>
      cases d.lineId with
      | none => exact ⟨rfl, rfl, rfl, rfl, rfl, rfl, rfl, rfl⟩
      | some id =>
          cases c with
          | none => exact ⟨rfl, rfl, rfl, rfl, rfl, rfl, rfl, rfl⟩
          | some ch =>
              by_cases hne : id = ""
              · simp [hne]
              · simp only [ne_eq, hne, not_false_eq_true, if_true]
                rw [lineScan_foldl]
                cases lastLineMatch ch.series id <;>
                  exact ⟨rfl, rfl, rfl, rfl, rfl, rfl, rfl, rfl⟩

/-- Polygon resolution only ever touches the entry's `polygonDataItem`
cache: every other field of the data item is preserved. -/
theorem resolvePolygon_fst_preserves (c : Option Chart) (d : PointDataItem) :
    ((resolvePolygon c d).1).geometry = d.geometry
    ∧ ((resolvePolygon c d).1).longitude = d.longitude
    ∧ ((resolvePolygon c d).1).latitude = d.latitude
    ∧ ((resolvePolygon c d).1).positionOnLine = d.positionOnLine
    ∧ ((resolvePolygon c d).1).autoRotate = d.autoRotate
    ∧ ((resolvePolygon c d).1).autoRotateAngle = d.autoRotateAngle
    ∧ ((resolvePolygon c d).1).lineDataItem = d.lineDataItem
    ∧ ((resolvePolygon c d).1).lineId = d.lineId := by
  unfold resolvePolygon
  cases d.polygonDataItem with
  | some polygonDI => exact ⟨rfl, rfl, rfl, rfl, rfl, rfl, rfl, rfl⟩
  | none =>
      cases d.polygonId with
      | none => exact ⟨rfl, rfl, rfl, rfl, rfl, rfl, rfl, rfl⟩
      | some id =>
          cases c with
          | none => exact ⟨rfl, rfl, rfl, rfl, rfl, rfl, rfl, rfl⟩
          | some ch =>
              by_cases hne : id = ""
              · simp [hne]
              · simp only [ne_eq, hne, not_false_eq_true, if_true]
                rw [polygonScan_foldl]
                cases lastPolygonMatch ch.series id <;>
                  exact ⟨rfl, rfl, rfl, rfl, rfl, rfl, rfl, rfl⟩

/-- C5: for an entry resolved to a line with numeric `positionOnLine = p`
and `autoRotate` set, placement samples the line's geo points at p - 0.002
and p + 0.002, converts both to screen space with `chart.convert`, caches
the angle between them (computed by the angle utility) as
`autoRotateAngle`, and applies that angle to the marker's rotation. -/
theorem autorotate_angle_cached (gA : Rat × Rat → Rat × Rat → Rat) (ch : Chart)
    (st : MapPointSettings) (idx : Option Nat) (d : PointDataItem) (s : Sprite)
    (l : MapLine) (p : Rat)
    (hl : (resolveLine (some ch) d).2.1 = some l)
    (hp : (resolvePolygon (some ch) (resolveLine (some ch) d).1).2.1 = none)
    (hpos : d.positionOnLine = some p)
    (har : d.autoRotate = true) :
    ((positionBullet gA (some ch) st idx d s).1).autoRotateAngle
        = some (gA (ch.convert (l.positionToGeoPoint (p - 0.002)))
                   (ch.convert (l.positionToGeoPoint (p + 0.002))))
    ∧ ((positionBullet gA (some ch) st idx d s).2.1).rotation
        = some (gA (ch.convert (l.positionToGeoPoint (p - 0.002)))
                   (ch.convert (l.positionToGeoPoint (p + 0.002)))) := by
  have e1 := resolveLine_fst_preserves (some ch) d
  have e2 := resolvePolygon_fst_preserves (some ch) (resolveLine (some ch) d).1
  have hpos2 : ((resolvePolygon (some ch) (resolveLine (some ch) d).1).1).positionOnLine
      = some p := by rw [e2.2.2.2.1, e1.2.2.2.1, hpos]
  have har2 : ((resolvePolygon (some ch) (resolveLine (some ch) d).1).1).autoRotate
      = true := by rw [e2.2.2.2.2.1, e1.2.2.2.2.1, har]
  cases hxy : ch.projection ((l.positionToGeoPoint p).longitude, (l.positionToGeoPoint p).latitude) <;>
    simp [positionBullet, positionBulletReal, hl, hp, hpos2, har2, hxy]

/-- C5 witness: the entry attached to `line1` at position 1/2 with
`autoRotate` gets angle `gAngle0` of the screen points at 1/2 - 0.002 and
1/2 + 0.002 (here 1/2 - 0.002, since `gAngle0` returns the first
coordinate of the first point) cached and applied as rotation. -/
theorem autorotate_angle_cached_witness :
    ((positionBullet gAngle0 (some chartAll) st00 none entryLine sprite0).1).autoRotateAngle
        = some (1/2 - 0.002)
    ∧ ((positionBullet gAngle0 (some chartAll) st00 none entryLine sprite0).2.1).rotation
        = some (1/2 - 0.002) :=
  autorotate_angle_cached gAngle0 chartAll st00 none entryLine sprite0 line1 (1/2)
    rfl rfl rfl rfl

/-- C3: a populated reference cache short-circuits resolution (no scan,
data item untouched, cached reference reused); a successful scan populates
the cache; and a placement call on an entry whose references are each
either cached or absent performs zero sibling-series scans and leaves both
caches unchanged. -/
theorem resolver_caching :
    (∀ (c : Option Chart) (d : PointDataItem) (lineDI : LineDataItem),
      d.lineDataItem = some lineDI → resolveLine c d = (d, lineDI.mapLine, 0))
    ∧ (∀ (c : Option Chart) (d : PointDataItem) (polygonDI : PolygonDataItem),
      d.polygonDataItem = some polygonDI → resolvePolygon c d = (d, polygonDI.mapPolygon, 0))
    ∧ (∀ (ch : Chart) (d : PointDataItem) (id : String) (lineDI : LineDataItem),
      d.lineDataItem = none → d.lineId = some id → id ≠ "" →
      lastLineMatch ch.series id = some lineDI →
      ((resolveLine (some ch) d).1).lineDataItem = some lineDI)
    ∧ (∀ (gA : Rat × Rat → Rat × Rat → Rat) (c : Option Chart) (st : MapPointSettings)
        (idx : Option Nat) (d : PointDataItem) (s : Sprite),
      (d.lineDataItem.isSome = true ∨ d.lineId = none) →
      (d.polygonDataItem.isSome = true ∨ d.polygonId = none) →
      (positionBullet gA c st idx d s).2.2 = 0
      ∧ ((positionBullet gA c st idx d s).1).lineDataItem = d.lineDataItem
      ∧ ((positionBullet gA c st idx d s).1).polygonDataItem = d.polygonDataItem) := by
  refine ⟨?_, ?_, ?_, ?_⟩
  · intro c d lineDI h
    simp [resolveLine, h]
  · intro c d polygonDI h
    simp [resolvePolygon, h]
  · intro ch d id lineDI h1 h2 h3 h4
    simp [resolveLine, h1, h2, h3, lineScan_foldl, h4]
  · intro gA c st idx d s hl hp
    have hrl : (resolveLine c d).1 = d ∧ (resolveLine c d).2.2 = 0 := by
      rcases hl with hs | hn
      · rcases Option.isSome_iff_exists.mp hs with ⟨lineDI, hldi⟩
        simp [resolveLine, hldi]
      · cases hc : d.lineDataItem with
        | some lineDI => simp [resolveLine, hc]
        | none => simp [resolveLine, hc, hn]
    have hrp : (resolvePolygon c d).1 = d ∧ (resolvePolygon c d).2.2 = 0 := by
      rcases hp with hs | hn
      · rcases Option.isSome_iff_exists.mp hs with ⟨polygonDI, hpdi⟩
        simp [resolvePolygon, hpdi]
      · cases hc : d.polygonDataItem with
        | some polygonDI => simp [resolvePolygon, hc]
        | none => simp [resolvePolygon, hc, hn]
    simp only [positionBullet, hrl.1, hrl.2, hrp.1, hrp.2, Nat.add_zero]
    cases (resolvePolygon c d).2.1 with
    | some poly => simp
    | none =>
        cases (resolveLine c d).2.1 <;> cases d.positionOnLine <;>
          cases d.autoRotate <;> cases c <;> cases d.longitude <;> cases d.latitude <;>
            try simp
        all_goals
          cases hg : d.geometry with
          | none => simp
          | some g =>
              cases g with
              | point cc => simp
              | multiPoint cs =>
                  cases hc : cs[idx.getD 0]? <;> simp [hc]

/-- C3 witness: the entry with both caches populated resolves both
references with zero scans, a successful scan populates the line cache,
and a placement call on it performs zero scans and leaves the caches as
they were. -/
theorem resolver_caching_witness :
    resolveLine (some chartAll) entryBoth = (entryBoth, some line1, 0)
    ∧ resolvePolygon (some chartAll) entryBoth = (entryBoth, some poly1, 0)
    ∧ ((resolveLine (some chartDup) entryDup).1).lineDataItem = some ldiB
    ∧ (positionBullet gAngle0 (some chartAll) st00 none entryBoth sprite0).2.2 = 0
    ∧ ((positionBullet gAngle0 (some chartAll) st00 none entryBoth sprite0).1).lineDataItem
        = some ldi1
    ∧ ((positionBullet gAngle0 (some chartAll) st00 none entryBoth sprite0).1).polygonDataItem
        = some pdi1 := by
  have h1 := resolver_caching.1 (some chartAll) entryBoth ldi1 rfl
  have h2 := resolver_caching.2.1 (some chartAll) entryBoth pdi1 rfl
  have h3 := resolver_caching.2.2.1 chartDup entryDup dupId ldiB rfl rfl (by decide) rfl
  have h4 := resolver_caching.2.2.2 gAngle0 (some chartAll) st00 none entryBoth sprite0
    (Or.inl rfl) (Or.inl rfl)
  exact ⟨h1, h2, h3, h4.1, h4.2.1, h4.2.2⟩

/-- C2 counterexample: with two sibling line series both matching `dupId`
(`seriesA` first, `seriesB` second), the first-series match is `ldiA`, but
the resolver caches `ldiB` — the scan does not stop at the first match;
the later series wins. -/
theorem resolver_first_match_cex :
    firstLineMatch chartDup.series dupId = some ldiA
    ∧ ((resolveLine (some chartDup) entryDup).1).lineDataItem = some ldiB
    ∧ ((resolveLine (some chartDup) entryDup).1).lineDataItem
        ≠ firstLineMatch chartDup.series dupId := by
  refine ⟨rfl, rfl, ?_⟩
  intro h
  have h2 : some ldiB = some ldiA := by
    calc some ldiB = ((resolveLine (some chartDup) entryDup).1).lineDataItem := rfl
    _ = firstLineMatch chartDup.series dupId := h
    _ = some ldiA := rfl
  have h3 : ldiB = ldiA := Option.some.inj h2
  have h4 : ldiB.mapLine.map (fun l => l.positionToGeoPoint 0)
      = ldiA.mapLine.map (fun l => l.positionToGeoPoint 0) := by rw [h3]
  simp [ldiA, ldiB] at h4

/-- C2 amended: when the same identifier matches entries in several
sibling series, the scan visits the whole collection and resolution yields
the entry of the LAST matching series in collection insertion order (each
later match overwrites the earlier one); the scan does not stop at the
first match. -/
theorem resolver_last_match :
    (∀ (ch : Chart) (d : PointDataItem) (id : String),
      d.lineDataItem = none → d.lineId = some id → id ≠ "" →
      ((resolveLine (some ch) d).1).lineDataItem = lastLineMatch ch.series id
      ∧ (resolveLine (some ch) d).2.1
          = (lastLineMatch ch.series id).bind (fun lineDI => lineDI.mapLine))
    ∧ (∀ (ch : Chart) (d : PointDataItem) (id : String),
      d.polygonDataItem = none → d.polygonId = some id → id ≠ "" →
      ((resolvePolygon (some ch) d).1).polygonDataItem = lastPolygonMatch ch.series id
      ∧ (resolvePolygon (some ch) d).2.1
          = (lastPolygonMatch ch.series id).bind (fun polygonDI => polygonDI.mapPolygon)) := by
  constructor
  · intro ch d id h1 h2 h3
    simp only [resolveLine, h1, h2, h3, ne_eq, not_false_eq_true, if_true, lineScan_foldl]
    cases lastLineMatch ch.series id <;> simp [h1]
  · intro ch d id h1 h2 h3
    simp only [resolvePolygon, h1, h2, h3, ne_eq, not_false_eq_true, if_true, polygonScan_foldl]
    cases lastPolygonMatch ch.series id <;> simp [h1]

/-- C2 amended witness: on the duplicated-identifier chart the resolver
ends with the second series' item `ldiB` cached and its line as the local
line. -/
theorem resolver_last_match_witness :
    ((resolveLine (some chartDup) entryDup).1).lineDataItem = lastLineMatch chartDup.series dupId
    ∧ (resolveLine (some chartDup) entryDup).2.1
        = (lastLineMatch chartDup.series dupId).bind (fun lineDI => lineDI.mapLine) :=
  resolver_last_match.1 chartDup entryDup dupId rfl rfl (by decide)
